import Mathlib

/-!
Verification development for the `cview-widget-views` library
(`src/index.js`): a fluent builder of widget-view trees.  Each widget
node holds a kind tag (`type`), an `ordered` flag, an insertion-ordered
attribute store (a JS `Map` in the source), and a children list
(`_views`), and serializes recursively to a plain definition object.

The JS values the library manipulates are shallowly embedded as the
inductive `Value` below; numbers are modelled as rationals (the claims
never involve NaN or signed zero), and a `BaseWidget` instance is itself
a JS value, modelled by the `Value.widget` constructor.
-/

/-- Shallow embedding of the JS values the library manipulates.
`obj` keeps the fields in insertion order, as JS objects do for
non-integer string keys; `widget` is a `BaseWidget` instance with its
`type` slot, `ordered` flag, `_props` map (an insertion-ordered list of
unique-key entries) and `_views` array. -/
inductive Value : Type where
  | num (q : ℚ)
  | str (s : String)
  | bool (b : Bool)
  | undef
  | null
  | obj (fields : List (String × Value))
  | arr (elems : List Value)
  | widget (type : Value) (ordered : Bool) (attrs : List (String × Value))
      (views : List Value)

/-- `v instanceof BaseWidget` in the source. -/
def Value.isWidget : Value → Bool
  | .widget .. => true
  | _ => false

/-- Whether a value is JS `undefined` (an omitted argument). -/
def Value.isUndef : Value → Bool
  | .undef => true
  | _ => false

/-- A defaulted JS parameter (`bool = true` and the like): the default
replaces the argument exactly when the argument is `undefined`. -/
def jsDefault (v d : Value) : Value :=
  if v.isUndef then d else v

/-- JS truthiness of an embedded value. -/
def Value.truthy : Value → Bool
  | .num q => q ≠ 0
  | .str s => s ≠ ""
  | .bool b => b
  | .undef => false
  | .null => false
  | .obj _ => true
  | .arr _ => true
  | .widget .. => true

/-- Property read on a serialized definition object. -/
def Value.getField : Value → String → Option Value
  | .obj fields, k => (fields.find? (fun p => p.1 == k)).map (·.2)
  | _, _ => none

/-- `Map.prototype.get`-style lookup on the attribute store. -/
def lookupAttr (m : List (String × Value)) (k : String) : Option Value :=
  (m.find? (fun p => p.1 == k)).map (·.2)

/-- `Map.prototype.set` on the attribute store: an existing key keeps its
position and only its value is updated; a new key is appended. -/
def mapSet (m : List (String × Value)) (k : String) (v : Value) :
    List (String × Value) :=
  if m.any (fun p => p.1 == k) then
    m.map (fun p => if p.1 == k then (k, v) else p)
  else m ++ [(k, v)]

/-- `_getDefinition(view)` from `src/index.js` (lines 16–27): builds the
definition object with `type` first, then exactly one of
`modifiers`/`props` chosen by `ordered`, then `views` only when the
children array is non-empty, recursively serializing children that are
`BaseWidget` instances and passing every other child through. -/
def getDefinition : Value → Value
  | .widget t ord attrs views =>
      Value.obj
        ([("type", t)]
          ++ (if ord then
                [("modifiers", Value.arr (attrs.map (fun p => Value.obj [p])))]
              else [("props", Value.obj attrs)])
          ++ (if views.isEmpty then []
              else [("views", Value.arr (views.attach.map (fun c =>
                      if c.1.isWidget then getDefinition c.1 else c.1)))]))
  | v => v
termination_by v => sizeOf v
decreasing_by
  have h := List.sizeOf_lt_of_mem c.2
  simp only [Value.widget.sizeOf_spec]
  omega

/-- The mutable state of a `BaseWidget` instance: its `type` slot
(`undefined` until a subclass constructor assigns it), the `ordered`
flag, the `_props` map (insertion-ordered, unique keys) and the `_views`
array. -/
structure Widget : Type where
  type : Value
  ordered : Bool
  attrs : List (String × Value)
  views : List Value

/-- The widget state seen as a JS value (the object `this`). -/
def Widget.toValue (w : Widget) : Value :=
  .widget w.type w.ordered w.attrs w.views

/-- `new BaseWidget(ordered)`: empty attribute store, empty views, no
`type` assigned yet. -/
def mkBaseWidget (ordered : Bool := false) : Widget :=
  { type := .undef, ordered := ordered, attrs := [], views := [] }

/-- The `props` getter (lines 40–42): `Object.fromEntries` of the map
entries; since the map's keys are unique this is the entry list itself
read as an object. -/
def Widget.props (w : Widget) : Value :=
  .obj w.attrs

/-- The `modifiers` getter (lines 47–49): the entry list mapped to
single-key objects, in map (insertion) order. -/
def Widget.modifiers (w : Widget) : Value :=
  .arr (w.attrs.map (fun p => Value.obj [p]))

/-- The `definition` getter (lines 12–14): recomputed from the current
state on every read. -/
def Widget.definition (w : Widget) : Value :=
  getDefinition w.toValue

/-- `_setProps(name, value)` (lines 70–72): the raw map write. -/
def Widget.setPropsRaw (w : Widget) (name : String) (v : Value) : Widget :=
  { w with attrs := mapSet w.attrs name v }

/-- A chainable setter's shared shape: `this._setProps(name, value);
return this;`.  The pair is (state after the call, JS return value). -/
def Widget.chain (w : Widget) (name : String) (v : Value) : Widget × Value :=
  let w' := w.setPropsRaw name v
  (w', w'.toValue)

/-- `setProps(name, value)` (lines 65–68). -/
def Widget.setProps (w : Widget) (name : String) (v : Value) : Widget × Value :=
  let w' := w.setPropsRaw name v
  (w', w'.toValue)

/-- `setViews(arr)` (lines 55–58). -/
def Widget.setViews (w : Widget) (arr : List Value) : Widget × Value :=
  let w' := { w with views := arr }
  (w', w'.toValue)

/-- `frame({...})` (lines 79–102): packs the nine destructured
parameters into one compound attribute value, in source order. -/
def Widget.frame (w : Widget)
    (width height alignment minWidth idealWidth maxWidth
     minHeight idealHeight maxHeight : Value) : Widget × Value :=
  w.chain "frame" (.obj
    [("width", width), ("height", height), ("alignment", alignment),
     ("minWidth", minWidth), ("idealWidth", idealWidth),
     ("maxWidth", maxWidth), ("minHeight", minHeight),
     ("idealHeight", idealHeight), ("maxHeight", maxHeight)])

/-- `position(point)` (lines 108–111). -/
def Widget.position (w : Widget) (point : Value) : Widget × Value :=
  w.chain "position" point

/-- `offset(point)` (lines 117–120). -/
def Widget.offset (w : Widget) (point : Value) : Widget × Value :=
  w.chain "offset" point

/-- `padding(param)` (lines 126–129). -/
def Widget.padding (w : Widget) (param : Value) : Widget × Value :=
  w.chain "padding" param

/-- `layoutPriority(num)` (lines 135–137): note that the source has no
`return this` here, so the call evaluates to `undefined`. -/
def Widget.layoutPriority (w : Widget) (num : Value) : Widget × Value :=
  let w' := w.setPropsRaw "layoutPriority" num
  (w', .undef)

/-- `cornerRadius(param)` (lines 143–146). -/
def Widget.cornerRadius (w : Widget) (param : Value) : Widget × Value :=
  w.chain "cornerRadius" param

/-- `border({color, width})` (lines 152–155). -/
def Widget.border (w : Widget) (color width : Value) : Widget × Value :=
  w.chain "border" (.obj [("color", color), ("width", width)])

/-- `clipped(bool = true, antialiased)` (lines 162–169): when
`antialiased` is falsy the (defaulted) first argument is stored; when it
is truthy the fixed record `{antialiased: true}` is stored instead. -/
def Widget.clipped (w : Widget) (boolArg antialiased : Value) :
    Widget × Value :=
  let b := jsDefault boolArg (.bool true)
  if !antialiased.truthy then w.chain "clipped" b
  else w.chain "clipped" (.obj [("antialiased", .bool true)])

/-- `opacity(num)` (lines 175–178). -/
def Widget.opacity (w : Widget) (num : Value) : Widget × Value :=
  w.chain "opacity" num

/-- `blur(num)` (lines 184–187). -/
def Widget.blur (w : Widget) (num : Value) : Widget × Value :=
  w.chain "blur" num

/-- `color(color)` on `BaseWidget` (lines 193–196) and on `Color`
(lines 422–425): both store under the key `"color"`. -/
def Widget.color (w : Widget) (c : Value) : Widget × Value :=
  w.chain "color" c

/-- `background(param)` (lines 202–205). -/
def Widget.background (w : Widget) (param : Value) : Widget × Value :=
  w.chain "background" param

/-- `link(url)` (lines 211–214). -/
def Widget.link (w : Widget) (url : Value) : Widget × Value :=
  w.chain "link" url

/-- `widgetURL(url)` (lines 220–223). -/
def Widget.widgetURL (w : Widget) (url : Value) : Widget × Value :=
  w.chain "widgetURL" url

/-- `Text#text(text)` (lines 236–239). -/
def Widget.text (w : Widget) (t : Value) : Widget × Value :=
  w.chain "text" t

/-- `Text#date(date)` (lines 245–248). -/
def Widget.date (w : Widget) (d : Value) : Widget × Value :=
  w.chain "date" d

/-- `Text#style(num)` (lines 255–258). -/
def Widget.style (w : Widget) (num : Value) : Widget × Value :=
  w.chain "style" num

/-- `Text#startDate(date)` (lines 264–267). -/
def Widget.startDate (w : Widget) (d : Value) : Widget × Value :=
  w.chain "startDate" d

/-- `Text#endDate(date)` (lines 273–276). -/
def Widget.endDate (w : Widget) (d : Value) : Widget × Value :=
  w.chain "endDate" d

/-- `Text#bold(bool = true)` (lines 282–285). -/
def Widget.bold (w : Widget) (b : Value) : Widget × Value :=
  w.chain "bold" (jsDefault b (.bool true))

/-- `Text#font(font)` (lines 291–294). -/
def Widget.font (w : Widget) (f : Value) : Widget × Value :=
  w.chain "font" f

/-- `Text#lineLimit(num)` (lines 300–303). -/
def Widget.lineLimit (w : Widget) (num : Value) : Widget × Value :=
  w.chain "lineLimit" num

/-- `Text#minimumScaleFactor(num)` (lines 309–312). -/
def Widget.minimumScaleFactor (w : Widget) (num : Value) : Widget × Value :=
  w.chain "minimumScaleFactor" num

/-- `Image#image(image)` (lines 325–328). -/
def Widget.image (w : Widget) (img : Value) : Widget × Value :=
  w.chain "image" img

/-- `Image#symbol(symbol)` (lines 334–337). -/
def Widget.symbol (w : Widget) (s : Value) : Widget × Value :=
  w.chain "symbol" s

/-- `Image#path(path)` (lines 343–346). -/
def Widget.path (w : Widget) (p : Value) : Widget × Value :=
  w.chain "path" p

/-- `Image#uri(uri)` (lines 352–355). -/
def Widget.uri (w : Widget) (u : Value) : Widget × Value :=
  w.chain "uri" u

/-- `Image#resizable(bool = true)` (lines 361–364). -/
def Widget.resizable (w : Widget) (b : Value) : Widget × Value :=
  w.chain "resizable" (jsDefault b (.bool true))

/-- `Image#scaledToFill(bool = true)` (lines 370–373). -/
def Widget.scaledToFill (w : Widget) (b : Value) : Widget × Value :=
  w.chain "scaledToFill" (jsDefault b (.bool true))

/-- `Image#scaledToFit(bool = true)` (lines 379–382). -/
def Widget.scaledToFit (w : Widget) (b : Value) : Widget × Value :=
  w.chain "scaledToFit" (jsDefault b (.bool true))

/-- `Image#accessibilityHidden(bool = true)` (lines 388–391). -/
def Widget.accessibilityHidden (w : Widget) (b : Value) : Widget × Value :=
  w.chain "accessibilityHidden" (jsDefault b (.bool true))

/-- `Image#accessibilityLabel(bool = true)` (lines 397–400). -/
def Widget.accessibilityLabel (w : Widget) (b : Value) : Widget × Value :=
  w.chain "accessibilityLabel" (jsDefault b (.bool true))

/-- `Image#accessibilityHint(bool = true)` (lines 406–409). -/
def Widget.accessibilityHint (w : Widget) (b : Value) : Widget × Value :=
  w.chain "accessibilityHint" (jsDefault b (.bool true))

/-- `Color#light(hex)` (lines 431–434). -/
def Widget.light (w : Widget) (hex : Value) : Widget × Value :=
  w.chain "light" hex

/-- `Color#dark(hex)` (lines 440–443). -/
def Widget.dark (w : Widget) (hex : Value) : Widget × Value :=
  w.chain "dark" hex

/-- `Gradient#startPoint(point)` (lines 456–459). -/
def Widget.startPoint (w : Widget) (point : Value) : Widget × Value :=
  w.chain "startPoint" point

/-- `Gradient#endPoint(point)` (lines 465–468). -/
def Widget.endPoint (w : Widget) (point : Value) : Widget × Value :=
  w.chain "endPoint" point

/-- `Gradient#locations(arr)` (lines 475–478). -/
def Widget.locations (w : Widget) (arr : Value) : Widget × Value :=
  w.chain "locations" arr

/-- `Gradient#colors(arr)` (lines 485–488). -/
def Widget.colors (w : Widget) (arr : Value) : Widget × Value :=
  w.chain "colors" arr

/-- `alignment(num)` on `Hstack`/`Vstack`/`Zstack`/`Hgrid`/`Vgrid`
(all store under the key `"alignment"`). -/
def Widget.alignment (w : Widget) (num : Value) : Widget × Value :=
  w.chain "alignment" num

/-- `spacing(num)` on `Hstack`/`Vstack`/`Hgrid`/`Vgrid`. -/
def Widget.spacing (w : Widget) (num : Value) : Widget × Value :=
  w.chain "spacing" num

/-- `Spacer#minLength(num)` (lines 570–573). -/
def Widget.minLength (w : Widget) (num : Value) : Widget × Value :=
  w.chain "minLength" num

/-- `Hgrid#rows(arr)` (lines 599–602). -/
def Widget.rows (w : Widget) (arr : Value) : Widget × Value :=
  w.chain "rows" arr

/-- `Vgrid#columns(arr)` (lines 639–642). -/
def Widget.columns (w : Widget) (arr : Value) : Widget × Value :=
  w.chain "columns" arr

/-- `new Text()` (lines 226–230): `super()` with no argument, then
`this.type = "text"`. -/
def mkText : Widget :=
  { mkBaseWidget with type := .str "text" }

/-- `new Image()` (lines 315–319). -/
def mkImage : Widget :=
  { mkBaseWidget with type := .str "image" }

/-- `new Color()` (lines 412–416). -/
def mkColor : Widget :=
  { mkBaseWidget with type := .str "color" }

/-- `new Gradient()` (lines 446–450). -/
def mkGradient : Widget :=
  { mkBaseWidget with type := .str "gradient" }

/-- `new Hstack()` (lines 491–495). -/
def mkHstack : Widget :=
  { mkBaseWidget with type := .str "hstack" }

/-- `new Vstack()` (lines 517–521). -/
def mkVstack : Widget :=
  { mkBaseWidget with type := .str "vstack" }

/-- `new Zstack()` (lines 543–547). -/
def mkZstack : Widget :=
  { mkBaseWidget with type := .str "zstack" }

/-- `new Spacer()` (lines 560–564). -/
def mkSpacer : Widget :=
  { mkBaseWidget with type := .str "spacer" }

/-- `new Divider()` (lines 576–581). -/
def mkDivider : Widget :=
  { mkBaseWidget with type := .str "divider" }

/-- `new Hgrid()` (lines 583–587). -/
def mkHgrid : Widget :=
  { mkBaseWidget with type := .str "hgrid" }

/-- `new Vgrid()` (lines 623–627). -/
def mkVgrid : Widget :=
  { mkBaseWidget with type := .str "vgrid" }

/-- The exported variant catalog (`module.exports`, lines 664–676). -/
def catalog : List Widget :=
  [mkText, mkImage, mkColor, mkGradient, mkDivider, mkHstack, mkVstack,
   mkZstack, mkSpacer, mkHgrid, mkVgrid]

/-- One call of the public surface of a node, with its arguments: the
generic `setProps`/`setViews`, every convenience setter of the catalog,
and the read-only accesses (`views` getter, `definition` getter /
serialization, `props` and `modifiers` getters). -/
inductive Op : Type where
  | opSetProps (name : String) (v : Value)
  | opSetViews (arr : List Value)
  | opFrame (width height alignment minWidth idealWidth maxWidth
      minHeight idealHeight maxHeight : Value)
  | opPosition (v : Value)
  | opOffset (v : Value)
  | opPadding (v : Value)
  | opLayoutPriority (v : Value)
  | opCornerRadius (v : Value)
  | opBorder (color width : Value)
  | opClipped (boolArg antialiased : Value)
  | opOpacity (v : Value)
  | opBlur (v : Value)
  | opColor (v : Value)
  | opBackground (v : Value)
  | opLink (v : Value)
  | opWidgetURL (v : Value)
  | opText (v : Value)
  | opDate (v : Value)
  | opStyle (v : Value)
  | opStartDate (v : Value)
  | opEndDate (v : Value)
  | opBold (v : Value)
  | opFont (v : Value)
  | opLineLimit (v : Value)
  | opMinimumScaleFactor (v : Value)
  | opImage (v : Value)
  | opSymbol (v : Value)
  | opPath (v : Value)
  | opUri (v : Value)
  | opResizable (v : Value)
  | opScaledToFill (v : Value)
  | opScaledToFit (v : Value)
  | opAccessibilityHidden (v : Value)
  | opAccessibilityLabel (v : Value)
  | opAccessibilityHint (v : Value)
  | opLight (v : Value)
  | opDark (v : Value)
  | opStartPoint (v : Value)
  | opEndPoint (v : Value)
  | opLocations (v : Value)
  | opColors (v : Value)
  | opAlignment (v : Value)
  | opSpacing (v : Value)
  | opMinLength (v : Value)
  | opRows (v : Value)
  | opColumns (v : Value)
  | opGetViews
  | opGetProps
  | opGetModifiers
  | opGetDefinition

/-- The state of the node after one public call.  Getter reads
(`views`, `props`, `modifiers`, `definition`/serialization) do not
assign any field, so they leave the state unchanged. -/
def applyOp (w : Widget) (op : Op) : Widget :=
  match op with
  | .opSetProps name v => (w.setProps name v).1
  | .opSetViews arr => (w.setViews arr).1
  | .opFrame a b c d e f g h i => (w.frame a b c d e f g h i).1
  | .opPosition v => (w.position v).1
  | .opOffset v => (w.offset v).1
  | .opPadding v => (w.padding v).1
  | .opLayoutPriority v => (w.layoutPriority v).1
  | .opCornerRadius v => (w.cornerRadius v).1
  | .opBorder c wd => (w.border c wd).1
  | .opClipped b a => (w.clipped b a).1
  | .opOpacity v => (w.opacity v).1
  | .opBlur v => (w.blur v).1
  | .opColor v => (w.color v).1
  | .opBackground v => (w.background v).1
  | .opLink v => (w.link v).1
  | .opWidgetURL v => (w.widgetURL v).1
  | .opText v => (w.text v).1
  | .opDate v => (w.date v).1
  | .opStyle v => (w.style v).1
  | .opStartDate v => (w.startDate v).1
  | .opEndDate v => (w.endDate v).1
  | .opBold v => (w.bold v).1
  | .opFont v => (w.font v).1
  | .opLineLimit v => (w.lineLimit v).1
  | .opMinimumScaleFactor v => (w.minimumScaleFactor v).1
  | .opImage v => (w.image v).1
  | .opSymbol v => (w.symbol v).1
  | .opPath v => (w.path v).1
  | .opUri v => (w.uri v).1
  | .opResizable v => (w.resizable v).1
  | .opScaledToFill v => (w.scaledToFill v).1
  | .opScaledToFit v => (w.scaledToFit v).1
  | .opAccessibilityHidden v => (w.accessibilityHidden v).1
  | .opAccessibilityLabel v => (w.accessibilityLabel v).1
  | .opAccessibilityHint v => (w.accessibilityHint v).1
  | .opLight v => (w.light v).1
  | .opDark v => (w.dark v).1
  | .opStartPoint v => (w.startPoint v).1
  | .opEndPoint v => (w.endPoint v).1
  | .opLocations v => (w.locations v).1
  | .opColors v => (w.colors v).1
  | .opAlignment v => (w.alignment v).1
  | .opSpacing v => (w.spacing v).1
  | .opMinLength v => (w.minLength v).1
  | .opRows v => (w.rows v).1
  | .opColumns v => (w.columns v).1
  | .opGetViews => w
  | .opGetProps => w
  | .opGetModifiers => w
  | .opGetDefinition => w

/-- The state of the node after a sequence of public calls. -/
def runOps (w : Widget) (ops : List Op) : Widget :=
  ops.foldl applyOp w

/-! ### Basic lemmas about the serializer and the attribute store -/

/-- Unfolding of `_getDefinition` on a widget value, with the recursion
over children written as a plain `map`. -/
theorem getDefinition_widget (t : Value) (ord : Bool)
    (attrs : List (String × Value)) (views : List Value) :
    getDefinition (Value.widget t ord attrs views) =
      Value.obj
        ([("type", t)]
          ++ (if ord then
                [("modifiers", Value.arr (attrs.map (fun p => Value.obj [p])))]
              else [("props", Value.obj attrs)])
          ++ (if views.isEmpty then []
              else [("views", Value.arr (views.map (fun c =>
                      if c.isWidget then getDefinition c else c)))])) := by
  rw [getDefinition]
  simp [List.attach_map_val]

/-- The `type` field of a serialized definition. -/
theorem getField_definition_type (w : Widget) :
    w.definition.getField "type" = some w.type := by
  unfold Widget.definition Widget.toValue
  rw [getDefinition_widget]
  cases hord : w.ordered <;> cases hv : w.views.isEmpty <;>
    simp [Value.getField]

/-- The `modifiers` field of a serialized definition is present exactly
in ordered mode, and then holds the `modifiers` getter's value. -/
theorem getField_definition_modifiers (w : Widget) :
    w.definition.getField "modifiers" =
      if w.ordered then some w.modifiers else none := by
  unfold Widget.definition Widget.toValue
  rw [getDefinition_widget]
  cases hord : w.ordered <;> cases hv : w.views.isEmpty <;>
    simp [Value.getField, Widget.modifiers]

/-- The `props` field of a serialized definition is present exactly in
unordered mode, and then holds the `props` getter's value. -/
theorem getField_definition_props (w : Widget) :
    w.definition.getField "props" =
      if w.ordered then none else some w.props := by
  unfold Widget.definition Widget.toValue
  rw [getDefinition_widget]
  cases hord : w.ordered <;> cases hv : w.views.isEmpty <;>
    simp [Value.getField, Widget.props]

/-- The `views` field of a serialized definition is present exactly when
the children list is non-empty, and then holds the recursively mapped
children. -/
theorem getField_definition_views (w : Widget) :
    w.definition.getField "views" =
      if w.views.isEmpty then none
      else some (Value.arr (w.views.map (fun c =>
        if c.isWidget then getDefinition c else c))) := by
  unfold Widget.definition Widget.toValue
  rw [getDefinition_widget]
  cases hord : w.ordered <;> cases hv : w.views.isEmpty <;>
    simp [Value.getField]

/-- Writing a key that already occurs in the store rewrites every entry
carrying that key in place; the first such entry is what a lookup then
sees. -/
theorem find?_map_overwrite (m : List (String × Value)) (k : String)
    (v : Value) (h : ∃ p ∈ m, p.1 = k) :
    (m.map (fun p => if p.1 == k then (k, v) else p)).find?
        (fun p => p.1 == k) = some (k, v) := by
  induction m with
  | nil => simp at h
  | cons hd tl ih =>
    by_cases hk : hd.1 = k
    · simp [hk]
    · have htl : ∃ p ∈ tl, p.1 = k := by
        rcases h with ⟨p, hp, hpk⟩
        rcases List.mem_cons.mp hp with hph | hptl
        · exact absurd (hph ▸ hpk) hk
        · exact ⟨p, hptl, hpk⟩
      simpa [hk] using ih htl

/-- `Map.set` followed by `get` of the same key yields the new value. -/
theorem lookupAttr_mapSet_self (m : List (String × Value)) (k : String)
    (v : Value) : lookupAttr (mapSet m k v) k = some v := by
  unfold mapSet lookupAttr
  by_cases h : m.any (fun p => p.1 == k)
  · rw [if_pos h, find?_map_overwrite m k v]
    · rfl
    · rcases List.any_eq_true.mp h with ⟨p, hp, hpk⟩
      exact ⟨p, hp, by simpa using hpk⟩
  · rw [if_neg h, List.find?_append]
    have hnone : m.find? (fun p => p.1 == k) = none :=
      List.find?_eq_none.mpr (by
        intro p hp hpk
        exact h (List.any_eq_true.mpr ⟨p, hp, hpk⟩))
    simp [hnone]

/-- Rewriting the entries carrying key `k` never changes what a lookup
of a different key `k'` finds. -/
theorem find?_map_overwrite_other (m : List (String × Value))
    (k k' : String) (v : Value) (hne : k' ≠ k) :
    (m.map (fun p => if p.1 == k then (k, v) else p)).find?
        (fun p => p.1 == k') = m.find? (fun p => p.1 == k') := by
  induction m with
  | nil => rfl
  | cons hd tl ih =>
    rw [List.map_cons]
    by_cases hk : hd.1 = k
    · rw [if_pos (show (hd.1 == k) = true by simpa using hk)]
      rw [List.find?_cons_of_neg, List.find?_cons_of_neg]
      · exact ih
      · show ¬(hd.1 == k') = true
        simp [hk, Ne.symm hne]
      · show ¬(((k, v) : String × Value).1 == k') = true
        simp [Ne.symm hne]
    · rw [if_neg (show ¬(hd.1 == k) = true by simpa using hk)]
      by_cases hk' : hd.1 = k'
      · rw [List.find?_cons_of_pos, List.find?_cons_of_pos]
        · show (hd.1 == k') = true
          simpa using hk'
        · show (hd.1 == k') = true
          simpa using hk'
      · rw [List.find?_cons_of_neg, List.find?_cons_of_neg]
        · exact ih
        · show ¬(hd.1 == k') = true
          simpa using hk'
        · show ¬(hd.1 == k') = true
          simpa using hk'

/-- `Map.set` leaves the lookup of every other key unchanged. -/
theorem lookupAttr_mapSet_other (m : List (String × Value)) (k k' : String)
    (v : Value) (hne : k' ≠ k) :
    lookupAttr (mapSet m k v) k' = lookupAttr m k' := by
  unfold mapSet lookupAttr
  by_cases h : m.any (fun p => p.1 == k)
  · rw [if_pos h, find?_map_overwrite_other m k k' v hne]
  · rw [if_neg h, List.find?_append]
    have : ([((k, v) : String × Value)].find? (fun p => p.1 == k')) = none := by
      simp [Ne.symm hne]
    simp [this]

/-- Rewriting a key already in the store keeps the key sequence (and so
every entry's position) unchanged. -/
theorem keys_mapSet_mem (m : List (String × Value)) (k : String) (v : Value)
    (h : m.any (fun p => p.1 == k)) :
    (mapSet m k v).map Prod.fst = m.map Prod.fst := by
  unfold mapSet
  rw [if_pos h, List.map_map]
  refine List.map_congr_left ?_
  intro p _
  by_cases hk : p.1 = k
  · simp [hk]
  · simp [hk]

/-- Writing a fresh key appends it to the key sequence. -/
theorem keys_mapSet_not_mem (m : List (String × Value)) (k : String)
    (v : Value) (h : ¬ m.any (fun p => p.1 == k)) :
    (mapSet m k v).map Prod.fst = m.map Prod.fst ++ [k] := by
  unfold mapSet
  rw [if_neg h]
  simp

/-- Key membership matches the `any` test the source's `Map.set` uses. -/
theorem any_key_iff (m : List (String × Value)) (k : String) :
    m.any (fun p => p.1 == k) = true ↔ k ∈ m.map Prod.fst := by
  rw [List.any_eq_true]
  constructor
  · rintro ⟨p, hp, hpk⟩
    exact List.mem_map.mpr ⟨p, hp, by simpa using hpk⟩
  · intro hk
    rcases List.mem_map.mp hk with ⟨p, hp, hpk⟩
    exact ⟨p, hp, by simpa using hpk⟩

/-- `Map.set` preserves uniqueness of the stored keys. -/
theorem nodup_keys_mapSet (m : List (String × Value)) (k : String)
    (v : Value) (h : (m.map Prod.fst).Nodup) :
    ((mapSet m k v).map Prod.fst).Nodup := by
  by_cases hmem : m.any (fun p => p.1 == k)
  · rw [keys_mapSet_mem m k v hmem]
    exact h
  · rw [keys_mapSet_not_mem m k v hmem]
    have hk : k ∉ m.map Prod.fst := fun hc =>
      hmem ((any_key_iff m k).mpr hc)
    simp [List.nodup_append, h, hk]

/-- The state component of the public `setProps` is the raw map write. -/
theorem setProps_fst (w : Widget) (n : String) (v : Value) :
    (w.setProps n v).1 = w.setPropsRaw n v := rfl

/-- Overwriting a key already present in the store rewrites the entry in
place: the attribute list is the pointwise replacement of that entry. -/
theorem attrs_setPropsRaw_mem (w : Widget) (n : String) (v : Value)
    (h : n ∈ w.attrs.map Prod.fst) :
    (w.setPropsRaw n v).attrs =
      w.attrs.map (fun p => if p.1 == n then (n, v) else p) := by
  unfold Widget.setPropsRaw mapSet
  rw [if_pos ((any_key_iff _ _).mpr h)]

/-- Writing a key not yet present appends the entry. -/
theorem attrs_setPropsRaw_not_mem (w : Widget) (n : String) (v : Value)
    (h : n ∉ w.attrs.map Prod.fst) :
    (w.setPropsRaw n v).attrs = w.attrs ++ [(n, v)] := by
  unfold Widget.setPropsRaw mapSet
  rw [if_neg (fun hc => h ((any_key_iff _ _).mp hc))]

/-- Folding a batch of writes with pairwise-distinct fresh keys over a
node appends the batch to the store in call order. -/
theorem attrs_foldl_fresh (ps : List (String × Value)) :
    ∀ w : Widget, (∀ k ∈ ps.map Prod.fst, k ∉ w.attrs.map Prod.fst) →
      (ps.map Prod.fst).Nodup →
      (ps.foldl (fun w p => w.setPropsRaw p.1 p.2) w).attrs =
        w.attrs ++ ps := by
  induction ps with
  | nil =>
    intro w _ _
    simp
  | cons p rest ih =>
    intro w hfresh hnodup
    have hp1 : p.1 ∉ w.attrs.map Prod.fst := hfresh p.1 (by simp)
    have hstep : (w.setPropsRaw p.1 p.2).attrs = w.attrs ++ [(p.1, p.2)] :=
      attrs_setPropsRaw_not_mem w p.1 p.2 hp1
    have hfresh' : ∀ k ∈ rest.map Prod.fst,
        k ∉ (w.setPropsRaw p.1 p.2).attrs.map Prod.fst := by
      intro k hk
      have hkw : k ∉ w.attrs.map Prod.fst := hfresh k (by simp [hk])
      have hkp : k ≠ p.1 := by
        intro e
        rw [List.map_cons] at hnodup
        exact (List.nodup_cons.mp hnodup).1 (e ▸ hk)
      rw [hstep]
      simp [hkw, hkp]
    have hnodup' : (rest.map Prod.fst).Nodup := by
      rw [List.map_cons] at hnodup
      exact (List.nodup_cons.mp hnodup).2
    rw [List.foldl_cons, ih _ hfresh' hnodup', hstep]
    simp

/-- No public call changes the `type` slot: it is assigned only by the
variant constructors. -/
theorem applyOp_type (w : Widget) (op : Op) : (applyOp w op).type = w.type := by
  cases op <;> try rfl
  all_goals
    simp only [applyOp, Widget.clipped]
    split <;> rfl

/-- No public call changes the `ordered` flag: it is assigned only by
the `BaseWidget` constructor. -/
theorem applyOp_ordered (w : Widget) (op : Op) :
    (applyOp w op).ordered = w.ordered := by
  cases op <;> try rfl
  all_goals
    simp only [applyOp, Widget.clipped]
    split <;> rfl

/-- `type` is invariant under any sequence of public calls. -/
theorem runOps_type (w : Widget) (ops : List Op) :
    (runOps w ops).type = w.type := by
  induction ops generalizing w with
  | nil => rfl
  | cons op rest ih =>
    show (runOps (applyOp w op) rest).type = w.type
    rw [ih (applyOp w op), applyOp_type]

/-- `ordered` is invariant under any sequence of public calls. -/
theorem runOps_ordered (w : Widget) (ops : List Op) :
    (runOps w ops).ordered = w.ordered := by
  induction ops generalizing w with
  | nil => rfl
  | cons op rest ih =>
    show (runOps (applyOp w op) rest).ordered = w.ordered
    rw [ih (applyOp w op), applyOp_ordered]

/-! ### The claims -/

/-- C1: every serialized definition carries exactly one of the two
attribute encodings, chosen by the `ordered` flag — `modifiers` present
and `props` absent in ordered mode, `props` present and `modifiers`
absent otherwise — and the field is present even for an empty attribute
store, as an empty list / empty mapping. -/
theorem claim_c1 (w : Widget) :
    w.definition.getField "modifiers" =
        (if w.ordered then some w.modifiers else none) ∧
      w.definition.getField "props" =
        (if w.ordered then none else some w.props) ∧
      ({ w with attrs := [] } : Widget).definition.getField "modifiers" =
        (if w.ordered then some (Value.arr []) else none) ∧
      ({ w with attrs := [] } : Widget).definition.getField "props" =
        (if w.ordered then none else some (Value.obj [])) := by
  obtain ⟨t, ord, attrs, views⟩ := w
  refine ⟨getField_definition_modifiers _, getField_definition_props _, ?_, ?_⟩
  · rw [getField_definition_modifiers]
    cases ord <;> rfl
  · rw [getField_definition_props]
    cases ord <;> rfl

/-- C2: the serialized definition omits `views` exactly when the
children list is empty; otherwise `views` maps the children in order,
replacing each `BaseWidget` child by its own recursively computed
definition and passing every other child through unchanged. -/
theorem claim_c2 (w u : Widget) (c : Value) (hc : c.isWidget = false) :
    (w.definition.getField "views" =
        if w.views.isEmpty then none
        else some (Value.arr (w.views.map (fun x =>
          if x.isWidget then getDefinition x else x)))) ∧
      (if u.toValue.isWidget then getDefinition u.toValue else u.toValue) =
        u.definition ∧
      (if c.isWidget then getDefinition c else c) = c := by
  refine ⟨getField_definition_views w, rfl, ?_⟩
  rw [hc]
  rfl

/-- Witness for C2: a childless `zstack` omits `views`; with a `text`
child and a raw string child, `views` has the serialized child followed
by the untouched raw value. -/
theorem claim_c2_witness :
    (mkZstack.definition.getField "views" = none) ∧
      (({ mkZstack with views := [mkText.toValue, Value.str "raw"] } :
          Widget).definition.getField "views" =
        some (Value.arr [mkText.definition, Value.str "raw"])) := by
  constructor
  · simpa using (claim_c2 mkZstack mkText Value.null rfl).1
  · have h := (claim_c2
      { mkZstack with views := [mkText.toValue, Value.str "raw"] }
      mkText Value.null rfl).1
    simpa [Widget.toValue, Widget.definition, Value.isWidget] using h

/-- C3: in unordered mode, writing an existing attribute name overwrites
in place: the key sequence is unchanged (no duplicate appended), key
uniqueness is preserved, and the scenario `{a:1}`, `{b:2}`, `{a:3}`
serializes as `props = {a: 3, b: 2}`. -/
theorem claim_c3 :
    (∀ (w : Widget) (n : String) (v : Value),
      (w.attrs.map Prod.fst).Nodup →
        ((w.setProps n v).1.attrs.map Prod.fst).Nodup ∧
          (n ∈ w.attrs.map Prod.fst →
            (w.setProps n v).1.attrs.map Prod.fst = w.attrs.map Prod.fst)) ∧
      ((((mkText.setProps "a" (Value.num 1)).1.setProps "b"
          (Value.num 2)).1.setProps "a" (Value.num 3)).1.props =
        Value.obj [("a", Value.num 3), ("b", Value.num 2)]) := by
  constructor
  · intro w n v hnodup
    rw [setProps_fst]
    exact ⟨nodup_keys_mapSet _ _ _ hnodup,
      fun hmem => keys_mapSet_mem _ _ _ ((any_key_iff _ _).mpr hmem)⟩
  · rfl

/-- Witness for C3: overwriting the sole attribute of a concrete `text`
node keeps the key list `["a"]` duplicate-free and unchanged. -/
theorem claim_c3_witness :
    ((({ mkText with attrs := [("a", Value.num 1)] } : Widget).setProps
        "a" (Value.num 5)).1.attrs.map Prod.fst).Nodup ∧
      (({ mkText with attrs := [("a", Value.num 1)] } : Widget).setProps
        "a" (Value.num 5)).1.attrs.map Prod.fst = ["a"] := by
  have h := claim_c3.1 { mkText with attrs := [("a", Value.num 1)] }
    "a" (Value.num 5) (by simp)
  exact ⟨h.1, h.2 (by simp)⟩

/-- C4: in ordered mode, overwriting a set attribute keeps its
first-insertion position: the key sequence is unchanged, and the
scenario set `x`, set `y`, set `x` again emits
`modifiers = [{x: latest}, {y: vy}]` with `x` still first. -/
theorem claim_c4 :
    (∀ (w : Widget) (n : String) (v : Value), n ∈ w.attrs.map Prod.fst →
      (w.setProps n v).1.attrs.map Prod.fst = w.attrs.map Prod.fst) ∧
      (∀ (x y : String) (vx1 vy vx2 : Value), x ≠ y →
        ((((mkBaseWidget true).setProps x vx1).1.setProps y vy).1.setProps
            x vx2).1.modifiers =
          Value.arr [Value.obj [(x, vx2)], Value.obj [(y, vy)]]) := by
  constructor
  · intro w n v hmem
    rw [setProps_fst]
    exact keys_mapSet_mem _ _ _ ((any_key_iff _ _).mpr hmem)
  · intro x y vx1 vy vx2 hxy
    have hyx : y ≠ x := Ne.symm hxy
    have e1 : ((mkBaseWidget true).setProps x vx1).1.attrs = [(x, vx1)] := by
      rw [setProps_fst, attrs_setPropsRaw_not_mem _ _ _ (by simp [mkBaseWidget])]
      simp [mkBaseWidget]
    have e2 : (((mkBaseWidget true).setProps x vx1).1.setProps y
        vy).1.attrs = [(x, vx1), (y, vy)] := by
      rw [setProps_fst,
        attrs_setPropsRaw_not_mem _ _ _ (by rw [e1]; simpa using hyx), e1]
      rfl
    have e3 : ((((mkBaseWidget true).setProps x vx1).1.setProps y
        vy).1.setProps x vx2).1.attrs = [(x, vx2), (y, vy)] := by
      rw [setProps_fst, attrs_setPropsRaw_mem _ _ _ (by rw [e2]; simp), e2]
      simp [hyx]
    simp [Widget.modifiers, e3]

/-- Witness for C4: the ordered scenario at `x`, `y`, values 1, 2, 9. -/
theorem claim_c4_witness :
    ((({ mkBaseWidget true with attrs := [("x", Value.num 1)] } :
        Widget).setProps "x" (Value.num 7)).1.attrs.map Prod.fst =
      ["x"]) ∧
      ((((mkBaseWidget true).setProps "x" (Value.num 1)).1.setProps "y"
          (Value.num 2)).1.setProps "x" (Value.num 9)).1.modifiers =
        Value.arr [Value.obj [("x", Value.num 9)],
          Value.obj [("y", Value.num 2)]] :=
  ⟨claim_c4.1 _ "x" (Value.num 7) (by simp),
    claim_c4.2 "x" "y" _ _ _ (by decide)⟩

/-- C5: in ordered mode, a batch of writes on pairwise-distinct names
starting from an empty store emits `modifiers` as the single-key records
in exactly call order; in particular `opacity` then `blur` serializes as
`[{opacity: 0.5}, {blur: 3}]`. -/
theorem claim_c5 :
    (∀ (ps : List (String × Value)) (w : Widget), w.attrs = [] →
      (ps.map Prod.fst).Nodup →
      (ps.foldl (fun w p => (w.setProps p.1 p.2).1) w).modifiers =
        Value.arr (ps.map (fun p => Value.obj [p]))) ∧
      ((((mkBaseWidget true).setProps "opacity"
          (Value.num (1/2))).1.setProps "blur" (Value.num 3)).1.modifiers =
        Value.arr [Value.obj [("opacity", Value.num (1/2))],
          Value.obj [("blur", Value.num 3)]]) := by
  constructor
  · intro ps w hempty hnodup
    have hfun : (fun (w : Widget) (p : String × Value) =>
          (w.setProps p.1 p.2).1) =
        fun (w : Widget) (p : String × Value) =>
          w.setPropsRaw p.1 p.2 := rfl
    rw [hfun, Widget.modifiers,
      attrs_foldl_fresh ps w (by simp [hempty]) hnodup, hempty]
    simp
  · rfl

/-- Witness for C5: a two-write batch with distinct names on an empty
ordered node. -/
theorem claim_c5_witness :
    (([(("u", Value.num 1) : String × Value), ("w", Value.num 2)].foldl
        (fun w p => (w.setProps p.1 p.2).1) (mkBaseWidget true)).modifiers =
      Value.arr [Value.obj [("u", Value.num 1)],
        Value.obj [("w", Value.num 2)]]) :=
  claim_c5.1 [("u", Value.num 1), ("w", Value.num 2)]
    (mkBaseWidget true) rfl (by decide)

/-- C6: the claim that every attribute-setting call returns the node it
was called on fails for `layoutPriority`, which has no `return`
statement: it evaluates to `undefined`, unlike `setProps` and the other
convenience setters, so a chain through `layoutPriority` breaks. -/
theorem claim_c6_code_bug :
    (∀ (w : Widget) (v : Value), (w.layoutPriority v).2 = Value.undef) ∧
      (∀ (w : Widget) (n : String) (v : Value),
        (w.setProps n v).2 = (w.setProps n v).1.toValue) ∧
      (∀ (w : Widget) (v : Value),
        (w.opacity v).2 = (w.opacity v).1.toValue) ∧
      (∀ (w : Widget) (v : Value),
        (w.padding v).2 = (w.padding v).1.toValue) ∧
      (mkText.layoutPriority (Value.num 1)).2 ≠
        (mkText.layoutPriority (Value.num 1)).1.toValue := by
  refine ⟨fun _ _ => rfl, fun _ _ _ => rfl, fun _ _ => rfl, fun _ _ => rfl, ?_⟩
  intro h
  exact Value.noConfusion h

/-- A successful store lookup means the key occurs in the store. -/
theorem mem_of_lookupAttr_some {m : List (String × Value)} {n : String}
    {old : Value} (h : lookupAttr m n = some old) :
    n ∈ m.map Prod.fst := by
  unfold lookupAttr at h
  cases hf : m.find? (fun p => p.1 == n) with
  | none =>
    rw [hf] at h
    cases h
  | some p =>
    have hp := List.find?_some hf
    have hmem := List.mem_of_find?_eq_some hf
    exact List.mem_map.mpr ⟨p, hmem, by simpa using hp⟩

/-- C7: serialization is recomputed from the current state: after
overwriting one existing attribute with a different value, the `type`
and `views` fields are unchanged, the attribute list is the pointwise
replacement of that one entry, and the two serialized definitions
differ. -/
theorem claim_c7 (w : Widget) (n : String) (v old : Value)
    (hold : lookupAttr w.attrs n = some old) (hne : v ≠ old) :
    (w.setProps n v).1.definition.getField "type" =
        w.definition.getField "type" ∧
      (w.setProps n v).1.definition.getField "views" =
        w.definition.getField "views" ∧
      (w.setProps n v).1.attrs =
        w.attrs.map (fun p => if p.1 == n then (n, v) else p) ∧
      (w.setProps n v).1.definition ≠ w.definition := by
  have hmem : n ∈ w.attrs.map Prod.fst := mem_of_lookupAttr_some hold
  have hord : (w.setProps n v).1.ordered = w.ordered := rfl
  have htype : (w.setProps n v).1.type = w.type := rfl
  have hviews : (w.setProps n v).1.views = w.views := rfl
  have hattrs : (w.setProps n v).1.attrs =
      w.attrs.map (fun p => if p.1 == n then (n, v) else p) := by
    rw [setProps_fst]
    exact attrs_setPropsRaw_mem w n v hmem
  have hlook : lookupAttr (w.setProps n v).1.attrs n = some v :=
    lookupAttr_mapSet_self w.attrs n v
  have hattrs_ne : (w.setProps n v).1.attrs ≠ w.attrs := by
    intro he
    rw [he, hold] at hlook
    exact hne (Option.some.inj hlook).symm
  refine ⟨?_, ?_, hattrs, ?_⟩
  · rw [getField_definition_type, getField_definition_type, htype]
  · rw [getField_definition_views, getField_definition_views, hviews]
  · intro hdef
    cases hb : w.ordered
    · have h1 := getField_definition_props (w.setProps n v).1
      have h2 := getField_definition_props w
      rw [hord, hb] at h1
      rw [hb] at h2
      rw [hdef, h2] at h1
      have := Option.some.inj h1
      unfold Widget.props at this
      exact hattrs_ne (Value.obj.inj this.symm)
    · have h1 := getField_definition_modifiers (w.setProps n v).1
      have h2 := getField_definition_modifiers w
      rw [hord, hb] at h1
      rw [hb] at h2
      rw [hdef, h2] at h1
      have harr := Option.some.inj h1
      unfold Widget.modifiers at harr
      have hmap := Value.arr.inj harr
      have hinj : Function.Injective
          (fun p : String × Value => Value.obj [p]) := by
        intro a b hab
        simpa using hab
      exact hattrs_ne (List.map_injective_iff.mpr hinj hmap.symm).symm.symm

/-- Witness for C7: overwriting `a: 1` with `a: 2` on a concrete `text`
node changes its serialized definition. -/
theorem claim_c7_witness :
    (({ mkText with attrs := [("a", Value.num 1)] } : Widget).setProps "a"
        (Value.num 2)).1.definition ≠
      ({ mkText with attrs := [("a", Value.num 1)] } : Widget).definition :=
  (claim_c7 { mkText with attrs := [("a", Value.num 1)] } "a"
    (Value.num 2) (Value.num 1) rfl
    (fun h => absurd (Value.num.inj h) (by norm_num))).2.2.2

/-- C8: no public call — the generic setters, every convenience setter,
the children accessors or serialization — changes the node's `type` tag
or its `ordered` flag, singly or in any sequence. -/
theorem claim_c8 (w : Widget) (op : Op) (ops : List Op) :
    (applyOp w op).type = w.type ∧ (applyOp w op).ordered = w.ordered ∧
      (runOps w ops).type = w.type ∧ (runOps w ops).ordered = w.ordered :=
  ⟨applyOp_type w op, applyOp_ordered w op, runOps_type w ops,
    runOps_ordered w ops⟩

/-- C9: every exported variant is constructed unordered, so any node
reached from the catalog by any call sequence serializes with a `props`
mapping and never a `modifiers` list. -/
theorem claim_c9 (w0 : Widget) (h : w0 ∈ catalog) (ops : List Op) :
    (runOps w0 ops).ordered = false ∧
      (runOps w0 ops).definition.getField "props" =
        some (runOps w0 ops).props ∧
      (runOps w0 ops).definition.getField "modifiers" = none := by
  have hord : w0.ordered = false := by
    fin_cases h <;> rfl
  have h1 : (runOps w0 ops).ordered = false := by
    rw [runOps_ordered, hord]
  refine ⟨h1, ?_, ?_⟩
  · rw [getField_definition_props, h1]
    simp
  · rw [getField_definition_modifiers, h1]
    simp

/-- Witness for C9: a `text` node from the catalog, after one attribute
write, serializes with `props` and without `modifiers`. -/
theorem claim_c9_witness :
    (runOps mkText [Op.opSetProps "a" (Value.num 1)]).definition.getField
        "modifiers" = none ∧
      (runOps mkText [Op.opSetProps "a" (Value.num 1)]).definition.getField
        "props" = some (Value.obj [("a", Value.num 1)]) := by
  have h := claim_c9 mkText
    (by unfold catalog; exact List.mem_cons_self _ _)
    [Op.opSetProps "a" (Value.num 1)]
  exact ⟨h.2.2, h.2.1.trans (by rfl)⟩

/-- C10: `clipped(b, a)` stores the fixed record `{antialiased: true}`
whenever `a` is truthy (discarding `b`, e.g. for `clipped(false, true)`),
and stores `b` itself — defaulted to `true` when omitted — whenever `a`
is absent or falsy. -/
theorem claim_c10 (w : Widget) (b a : Value) :
    lookupAttr (w.clipped b a).1.attrs "clipped" =
        some (if a.truthy then Value.obj [("antialiased", Value.bool true)]
          else jsDefault b (Value.bool true)) ∧
      lookupAttr (w.clipped (Value.bool false) (Value.bool true)).1.attrs
          "clipped" = some (Value.obj [("antialiased", Value.bool true)]) ∧
      lookupAttr (w.clipped Value.undef Value.undef).1.attrs "clipped" =
        some (Value.bool true) := by
  refine ⟨?_, lookupAttr_mapSet_self _ _ _, lookupAttr_mapSet_self _ _ _⟩
  have htrue : a.truthy = true →
      (w.clipped b a).1 = w.setPropsRaw "clipped"
        (Value.obj [("antialiased", Value.bool true)]) := by
    intro h
    unfold Widget.clipped Widget.chain
    rw [h]
    rfl
  have hfalse : a.truthy = false →
      (w.clipped b a).1 = w.setPropsRaw "clipped"
        (jsDefault b (Value.bool true)) := by
    intro h
    unfold Widget.clipped Widget.chain
    rw [h]
    rfl
  cases ha : a.truthy
  · rw [hfalse ha]
    exact lookupAttr_mapSet_self _ _ _
  · rw [htrue ha]
    exact lookupAttr_mapSet_self _ _ _
